import Mathlib

/-!
Shallow embedding of the asset-resolution and GeoJSON-normalization core of
`app.py` (Dash weather panel).  JSON documents are modelled by the inductive
type `JVal` (numbers as rationals, since all literals in the data are decimal),
the filesystem by `FS` (a list of existing directories plus a list of
`(directory, filename, parsed-content)` entries), and Python exceptions by
`Except PyErr`.  Python's stable `sorted` is modelled by
`List.insertionSort`, which is a stable sort for the same total preorder.
-/

/-- A JSON value as produced by Python's `json.load`.  Numbers are modelled as
rationals (every JSON numeric literal is decimal). -/
inductive JVal where
  | jnull : JVal
  | jbool : Bool → JVal
  | jnum : ℚ → JVal
  | jstr : String → JVal
  | jarr : List JVal → JVal
  | jobj : List (String × JVal) → JVal

/-- Python exception kinds that the embedded code can raise. -/
inductive PyErr where
  | attributeError
  | typeError
  | keyError
  | indexError
  | valueError
  | jsonDecodeError
  | fileNotFoundError
  | runtimeError
  deriving DecidableEq, Repr

namespace JVal

/-- Python truthiness (`bool(v)`) of a JSON value: `None`, `False`, `0`,
`""`, `[]` and `{}` are falsy, everything else truthy. -/
def truthy : JVal → Bool
  | jnull => false
  | jbool b => b
  | jnum q => q != 0
  | jstr s => s != ""
  | jarr xs => !xs.isEmpty
  | jobj kvs => !kvs.isEmpty

/-- Python `v == s` against a `str` constant: equal only when `v` is a string
with the same characters (values of other types compare unequal, without
raising). -/
def isStrEq (v : JVal) (s : String) : Bool :=
  match v with
  | jstr t => t == s
  | _ => false

end JVal

/-- First-match lookup in an association list (Python dict lookup; keys coming
from `json.load` are unique). -/
def lookupKV : List (String × JVal) → String → Option JVal
  | [], _ => none
  | (k', v) :: rest, k => if k' == k then some v else lookupKV rest k

/-- Python `v.get(k, dflt)`: succeeds only on dicts, otherwise raises
`AttributeError`. -/
def pyGetD (v : JVal) (k : String) (dflt : JVal) : Except PyErr JVal :=
  match v with
  | .jobj kvs => .ok ((lookupKV kvs k).getD dflt)
  | _ => .error .attributeError

/-- Python `len(v)`: length for lists, strings and dicts, `TypeError`
otherwise. -/
def pyLen : JVal → Except PyErr Nat
  | .jarr xs => .ok xs.length
  | .jstr s => .ok s.length
  | .jobj kvs => .ok kvs.length
  | _ => .error .typeError

/-- Python `v[i]` for a natural index: list indexing, single-character string
for strings, `KeyError` for dicts (JSON object keys are strings, so an integer
key is never present), `TypeError` otherwise. -/
def pyIndex (v : JVal) (i : Nat) : Except PyErr JVal :=
  match v with
  | .jarr xs => match xs.get? i with
    | some x => .ok x
    | none => .error .indexError
  | .jstr s => match s.data.get? i with
    | some c => .ok (.jstr (String.mk [c]))
    | none => .error .indexError
  | .jobj _ => .error .keyError
  | _ => .error .typeError

/-- Python iteration `for x in v`: lists yield their elements, strings their
characters (as one-character strings), dicts their keys; other values raise
`TypeError`. -/
def pyIter : JVal → Except PyErr (List JVal)
  | .jarr xs => .ok xs
  | .jstr s => .ok (s.data.map (fun c => .jstr (String.mk [c])))
  | .jobj kvs => .ok (kvs.map (fun kv => .jstr kv.1))
  | _ => .error .typeError

/-- `camada.upper()` restricted to ASCII (`str.upper` is Unicode-aware, but
every layer key in the app is ASCII). -/
def upperChar (c : Char) : Char :=
  if 'a' ≤ c && c ≤ 'z' then Char.ofNat (c.toNat - 32) else c

def pyUpper (s : String) : String := String.mk (s.data.map upperChar)

/-- `a or b or ... or dflt`: the first truthy value, else the default. -/
def orChain (dflt : JVal) : List JVal → JVal
  | [] => dflt
  | v :: vs => if v.truthy then v else orChain dflt vs

-- ----------------- strings, glob and dates ----------------- --

/-- Does the first list occur as a prefix of the second? -/
def startsWithL : List Char → List Char → Bool
  | [], _ => true
  | _ :: _, [] => false
  | p :: ps, c :: cs => p == c && startsWithL ps cs

/-- `s.replace(pat, "", 1)` for a nonempty pattern: remove the first
occurrence of `pat` from `s` (identity when absent). -/
def replaceFirstL (pat : List Char) : List Char → List Char
  | [] => []
  | c :: cs =>
    if startsWithL pat (c :: cs) then (c :: cs).drop pat.length
    else c :: replaceFirstL pat cs

def replaceFirst (s pat : String) : String :=
  String.mk (replaceFirstL pat.data s.data)

/-- `PurePath(name).stem`: the filename with its last extension removed (a
lone leading dot is not an extension).  All names this is applied to end in
`.png`, so the trailing-dot corner of `pathlib` cannot arise. -/
def stemOf (name : String) : String :=
  let rev := name.data.reverse
  let afterDot := rev.dropWhile (fun c => c ≠ '.')
  match afterDot with
  | [] => name
  | _ :: restRev => if restRev.isEmpty then name else String.mk restRev.reverse

/-- Shell-glob matching restricted to the patterns the program uses (literal
characters and `*`; every pattern in `app.py` starts with a literal, so the
hidden-file rule never applies).  `*` matches any run of characters. -/
def gmatch : List Char → List Char → Bool
  | [], name => name.isEmpty
  | '*' :: ps, name => name.tails.any (fun suf => gmatch ps suf)
  | _ :: _, [] => false
  | p :: ps, n :: ns => p == n && gmatch ps ns

def globMatch (pat name : String) : Bool :=
  gmatch pat.data name.data

/-- Gregorian leap year, as validated by `datetime`. -/
def isLeapYear (y : Nat) : Bool :=
  (y % 4 == 0 && y % 100 != 0) || y % 400 == 0

def daysInMonth (y m : Nat) : Nat :=
  if m == 2 then (if isLeapYear y then 29 else 28)
  else if m == 4 || m == 6 || m == 9 || m == 11 then 30
  else 31

def digitVal (c : Char) : Nat := c.toNat - 48

/-- `datetime.strptime(s, "%Y-%m-%d")`, returning the date encoded as
`y*10000 + m*100 + d` (an encoding whose `Nat` order is exactly `datetime`
order), or `none` when parsing fails.  This models the zero-padded
`YYYY-MM-DD` shape, the only shape produced by the regex
`\d{4}-\d{2}-\d{2}` and by the app's date dropdown; `strptime` also accepts
unpadded fields, which never occur here. -/
def strptimeYmd (s : String) : Option Nat :=
  match s.data with
  | [y1, y2, y3, y4, '-', m1, m2, '-', d1, d2] =>
    if y1.isDigit && y2.isDigit && y3.isDigit && y4.isDigit &&
       m1.isDigit && m2.isDigit && d1.isDigit && d2.isDigit then
      let y := digitVal y1 * 1000 + digitVal y2 * 100 + digitVal y3 * 10 + digitVal y4
      let m := digitVal m1 * 10 + digitVal m2
      let d := digitVal d1 * 10 + digitVal d2
      if 1 ≤ y && 1 ≤ m && m ≤ 12 && 1 ≤ d && d ≤ daysInMonth y m then
        some (y * 10000 + m * 100 + d)
      else none
    else none
  | _ => none

/-- Is `\d{4}-\d{2}-\d{2}` matched at the head of the list?  Returns the ten
matched characters. -/
def dateShapeHead (cs : List Char) : Option (List Char) :=
  match cs with
  | y1 :: y2 :: y3 :: y4 :: c5 :: m1 :: m2 :: c8 :: d1 :: d2 :: _ =>
    if y1.isDigit && y2.isDigit && y3.isDigit && y4.isDigit && c5 == '-' &&
       m1.isDigit && m2.isDigit && c8 == '-' && d1.isDigit && d2.isDigit then
      some [y1, y2, y3, y4, c5, m1, m2, c8, d1, d2]
    else none
  | _ => none

/-- `re.search(r"\d{4}-\d{2}-\d{2}", ·)`: the leftmost occurrence. -/
def searchDate : List Char → Option String
  | [] => none
  | c :: rest =>
    match dateShapeHead (c :: rest) with
    | some cs => some (String.mk cs)
    | none => searchDate rest

-- ----------------- filesystem model ----------------- --

/-- A path, as a `(directory, filename)` pair over the two candidate
directories of the app. -/
abbrev FPath := String × String

/-- A filesystem snapshot: the directories that exist, and the files as
`(directory, filename, content)` entries in OS listing order (`Path.glob`
yields entries in unspecified order; the list order models it).  A content of
`none` models a file whose bytes `json.load` rejects; `some j` a file parsing
to `j`.  PNG files' bytes are irrelevant to every claim, so their content
field is unused. -/
structure FS where
  dirs : List String
  files : List (String × String × Option JVal)

namespace FS

def dirExists (fs : FS) (d : String) : Bool :=
  fs.dirs.contains d

def fileExists (fs : FS) (p : FPath) : Bool :=
  fs.files.any (fun e => e.1 == p.1 && e.2.1 == p.2)

/-- `none`: the file does not exist. `some none`: it exists but is not valid
JSON. `some (some j)`: it exists and parses to `j`. -/
def contentOf (fs : FS) (p : FPath) : Option (Option JVal) :=
  (fs.files.find? (fun e => e.1 == p.1 && e.2.1 == p.2)).map (fun e => e.2.2)

/-- `d.glob(pat)`: the matching files of directory `d`, in listing order. -/
def glob (fs : FS) (d : String) (pat : String) : List FPath :=
  fs.files.filterMap (fun e =>
    if e.1 == d && globMatch pat e.2.1 then some (e.1, e.2.1) else none)

end FS

/-- The full path string, used only for `sorted(...)` over paths: `pathlib`
orders paths by their (case-preserved, on POSIX) string form. -/
def pathStr (p : FPath) : String := p.1 ++ "/" ++ p.2

/-- Lexicographic (code-point) comparison of character lists, as Python
compares strings. -/
def charsLe : List Char → List Char → Bool
  | [], _ => true
  | _ :: _, [] => false
  | a :: as, b :: bs =>
    if a.val < b.val then true
    else if b.val < a.val then false
    else charsLe as bs

def pathLe (p q : FPath) : Prop := charsLe (pathStr p).data (pathStr q).data = true

instance : DecidableRel pathLe := fun p q => instDecidableEqBool _ _

-- ----------------- configuration constants (app.py top) ----------------- --

def BASE_DIR : String := "."
def IMG_DIR : String := BASE_DIR
def CAMADAS_DIR : String := BASE_DIR ++ "/camadas_geojson"
def CAMADAS_FALLBACK_DIRS : List String := [CAMADAS_DIR, BASE_DIR]

/-- `GEOJSON_FILES`: a fixed dict from the three lowercase layer keys to
paths in the base directory; `.get` on any other key yields `None`. -/
def GEOJSON_FILES (k : String) : Option FPath :=
  if k == "upa" then some (BASE_DIR, "upa.geojson")
  else if k == "ubs" then some (BASE_DIR, "ubs.geojson")
  else if k == "ubsi" then some (BASE_DIR, "ubsi.geojson")
  else none

/-- `VAR_OPCOES`: key ↦ (label, prefix, usa_data). -/
def VAR_OPCOES : List (String × String × String × Bool) :=
  [("prec", ("Precipitação diária (mm)", "ecmwf_prec_", true)),
   ("tmin", ("Temperatura mínima diária (°C)", "ecmwf_tmin_", true)),
   ("tmax", ("Temperatura máxima diária (°C)", "ecmwf_tmax_", true)),
   ("tmed", ("Temperatura média diária (°C)", "ecmwf_tmed_", true)),
   ("prec_acum", ("Precipitação acumulada no período (mm)", "ecmwf_prec_acumulada_", false))]

def varLookup (k : String) : Option (String × String × Bool) :=
  (VAR_OPCOES.find? (fun e => e.1 == k)).map (fun e => e.2)

-- ----------------- HELPERS (PREVISÃO PNG) ----------------- --

/-- The date part extracted from one glob hit of `ecmwf_prec_*.png`:
`stem.replace("ecmwf_prec_", "", 1)`, kept only when
`datetime.strptime(·, "%Y-%m-%d")` succeeds. -/
def validDatePart (name : String) : Option String :=
  let parte := replaceFirst (stemOf name) "ecmwf_prec_"
  if (strptimeYmd parte).isSome then some parte else none

/-- `sorted(set)` of strings: the distinct values in code-point order. -/
def sortedSet (l : List String) : List String :=
  List.insertionSort (fun a b => charsLe a.data b.data = true) l.dedup

/-- `listar_datas_disponiveis`: raises `FileNotFoundError` when the image
directory does not exist, else the sorted set of valid embedded dates of
`ecmwf_prec_*.png` files. -/
def listar_datas_disponiveis (fs : FS) : Except PyErr (List String) :=
  if ¬ fs.dirExists IMG_DIR then .error .fileNotFoundError
  else .ok (sortedSet ((fs.glob IMG_DIR "ecmwf_prec_*.png").filterMap
    (fun p => validDatePart p.2)))

/-- Module initialisation (`DATAS = listar_datas_disponiveis()` followed by
the emptiness check): `RuntimeError` aborts startup when no dated
precipitation PNG is found. -/
def DATAS_init (fs : FS) : Except PyErr (List String) :=
  match listar_datas_disponiveis fs with
  | .error e => .error e
  | .ok datas => if datas.isEmpty then .error .runtimeError else .ok datas

/-- `carregar_imagem_base64`, restricted to the file-resolution outcome: the
returned path is the file whose bytes the function base64-encodes into the
returned data URI, and `none` models the empty-string result (the function's
only other outcome).  Unknown variable keys raise `KeyError`
(`VAR_OPCOES[var_key]`). -/
def carregar_imagem_base64 (fs : FS) (var_key : String) (data_iso : Option String) :
    Except PyErr (Option FPath) :=
  match varLookup var_key with
  | none => .error .keyError
  | some info =>
    let pre := info.2.1
    let imgPath? : Option FPath :=
      if var_key == "prec_acum" then
        (List.insertionSort pathLe (fs.glob IMG_DIR (pre ++ "*.png"))).getLast?
      else
        match data_iso with
        | none => none
        | some d => some (IMG_DIR, pre ++ d ++ ".png")
    match imgPath? with
    | none => .ok none
    | some p => if fs.fileExists p then .ok (some p) else .ok none

-- ----------------- HELPERS (UNIDADES) ----------------- --

/-- The accumulator of `carregar_geojson_points`: `(lats, lons, custom)`. -/
abbrev PtAcc := List JVal × List JVal × List (List JVal)

/-- `props.get(k)` after `props` is known to be a dict (missing ↦ `None`). -/
def gv (pd : List (String × JVal)) (k : String) : JVal :=
  (lookupKV pd k).getD .jnull

/-- The body of the `for ft in feats` loop of `carregar_geojson_points`,
translated check by check; side-effect-free failures skip the feature
(`continue`), Python exceptions abort via `Except.error`. -/
def pointsStep (camada : String) (acc : PtAcc) (ft : JVal) : Except PyErr PtAcc :=
  match pyGetD ft "geometry" (.jobj []) with
  | .error e => .error e
  | .ok geom =>
  match pyGetD ft "properties" (.jobj []) with
  | .error e => .error e
  | .ok props0 =>
  let props := if props0.truthy then props0 else .jobj []
  match pyGetD geom "type" .jnull with
  | .error e => .error e
  | .ok ty =>
  if ¬ ty.isStrEq "Point" then .ok acc
  else
  match pyGetD geom "coordinates" .jnull with
  | .error e => .error e
  | .ok coords =>
  if ¬ coords.truthy then .ok acc
  else
  match pyLen coords with
  | .error e => .error e
  | .ok n =>
  if n < 2 then .ok acc
  else
  match pyIndex coords 0 with
  | .error e => .error e
  | .ok lon =>
  match pyIndex coords 1 with
  | .error e => .error e
  | .ok lat =>
  match props with
  | .jobj pd =>
    let nome := orChain (.jstr "") [gv pd "nm_fantasia", gv pd "NM_FANTASIA",
      gv pd "nome_da_es", gv pd "NOME_DA_ES", gv pd "nome", gv pd "NOME"]
    let cnes := orChain (.jstr "") [gv pd "cd_cnes", gv pd "CD_CNES", gv pd "cnes", gv pd "CNES"]
    let cd_mun := orChain (.jstr "") [gv pd "cd_mun", gv pd "CD_MUN", gv pd "cod_mun", gv pd "COD_MUN"]
    let dsei := orChain (.jstr "") [gv pd "dsei", gv pd "DSEI"]
    let polo := orChain (.jstr "") [gv pd "polo_base", gv pd "POLO_BASE"]
    let cod_polo := orChain (.jstr "") [gv pd "cod_polo", gv pd "COD_POLO"]
    .ok (acc.1 ++ [lat], acc.2.1 ++ [lon],
      acc.2.2 ++ [[.jstr (pyUpper camada), nome, cnes, cd_mun, dsei, polo, cod_polo, lat, lon]])
  | _ => .error .attributeError

/-- `carregar_geojson_points(caminho, camada)`.  The `caminho` argument is
optional because `construir_mapa_unidades` passes `GEOJSON_FILES.get(key)`,
which is `None` for unknown keys; `None.exists()` raises `AttributeError`.
A missing file returns three empty lists; a file `json.load` rejects raises.
`pyUpper camada` models `camada.upper()` (all layer keys are ASCII). -/
def carregar_geojson_points (fs : FS) (caminho : Option FPath) (camada : String) :
    Except PyErr PtAcc :=
  match caminho with
  | none => .error .attributeError
  | some p =>
    match fs.contentOf p with
    | none => .ok ([], [], [])
    | some none => .error .jsonDecodeError
    | some (some gj) =>
      match pyGetD gj "features" (.jarr []) with
      | .error e => .error e
      | .ok featsV =>
        match pyIter featsV with
        | .error e => .error e
        | .ok feats => feats.foldlM (pointsStep camada) ([], [], [])

/-- The data-loading part of `construir_mapa_unidades` (lines 282–284): the
figure construction around it consumes these lists unchanged. -/
def construir_mapa_unidades_points (fs : FS) (camada_key : String) : Except PyErr PtAcc :=
  carregar_geojson_points fs (GEOJSON_FILES camada_key) camada_key

-- ----------------- HELPERS (CAMADAS PREVISÃO GEOJSON) ----------------- --

/-- `_parse_date_from_name`: the leftmost `\d{4}-\d{2}-\d{2}` substring,
kept only when `strptime` validates it as a real date. -/
def parseDateFromName (name : String) : Option String :=
  match searchDate name.data with
  | none => none
  | some di => if (strptimeYmd di).isSome then some di else none

/-- `_latest_file_in_dirs(pattern)`: glob each existing candidate directory,
sort the union by path string, take the last (or `None`). -/
def latestFileInDirs (fs : FS) (pat : String) : Option FPath :=
  let cands := CAMADAS_FALLBACK_DIRS.foldl
    (fun acc d => if fs.dirExists d then acc ++ fs.glob d pat else acc) []
  (List.insertionSort pathLe cands).getLast?

/-- Step 1 of `_best_match_date_file`: the exact filename, tried in each
candidate directory in order (`(d / name).exists()` needs no directory
check). -/
def exactStep (fs : FS) (var_key data_iso : String) : Option FPath :=
  CAMADAS_FALLBACK_DIRS.findSome? (fun d =>
    let p : FPath := (d, var_key ++ "_" ++ data_iso ++ ".geojson")
    if fs.fileExists p then some p else none)

/-- Step 2 of `_best_match_date_file`: in each existing candidate directory,
any file whose name matches `{var_key}*{data_iso}*.geojson`; the last of the
sorted hits of the first directory that has any. -/
def containsDateStep (fs : FS) (var_key data_iso : String) : Option FPath :=
  CAMADAS_FALLBACK_DIRS.findSome? (fun d =>
    if fs.dirExists d then
      (List.insertionSort pathLe
        (fs.glob d (var_key ++ "*" ++ data_iso ++ "*.geojson"))).getLast?
    else none)

/-- The `all_files` list of step 3: both globs over each existing candidate
directory (the second pattern subsumes the first, so files can repeat). -/
def allFilesOf (fs : FS) (var_key : String) : List FPath :=
  CAMADAS_FALLBACK_DIRS.foldl
    (fun acc d =>
      if fs.dirExists d then
        acc ++ fs.glob d (var_key ++ "_*.geojson") ++ fs.glob d (var_key ++ "*.geojson")
      else acc) []

/-- The `dated` list of step 3: `(strptime(embedded date), path)` for every
file of `all_files` with a parsable embedded date (the `strptime` of a date
already validated by `_parse_date_from_name` cannot fail). -/
def datedOf (fs : FS) (var_key : String) : List (Nat × FPath) :=
  (allFilesOf fs var_key).filterMap (fun p =>
    match parseDateFromName p.2 with
    | some di => (strptimeYmd di).map (fun t => (t, p))
    | none => none)

/-- Comparison used by `dated.sort(key=lambda x: x[0])`: by date only. -/
def dateLe (a b : Nat × FPath) : Prop := a.1 ≤ b.1

instance : DecidableRel dateLe := fun a b => Nat.decLe a.1 b.1
instance : IsTotal (Nat × FPath) dateLe := ⟨fun a b => Nat.le_total a.1 b.1⟩
instance : IsTrans (Nat × FPath) dateLe := ⟨fun _ _ _ h1 h2 => Nat.le_trans h1 h2⟩

/-- `_best_match_date_file(var_key, data_iso)`: exact name, then
date-substring match, then the latest embedded date ≤ the requested one,
then the latest embedded date outright.  `datetime.strptime(data_iso, ...)`
raises `ValueError` on a malformed request date. -/
def bestMatchDateFile (fs : FS) (var_key data_iso : String) : Except PyErr (Option FPath) :=
  match exactStep fs var_key data_iso with
  | some p => .ok (some p)
  | none =>
  match containsDateStep fs var_key data_iso with
  | some p => .ok (some p)
  | none =>
  match strptimeYmd data_iso with
  | none => .error .valueError
  | some target =>
    match datedOf fs var_key with
    | [] => .ok none
    | d0 :: drest =>
      let ds := List.insertionSort dateLe (d0 :: drest)
      let leq := ds.filter (fun x => decide (x.1 ≤ target))
      match leq.getLast? with
      | some x => .ok (some x.2)
      | none => .ok (ds.getLast?.map (fun x => x.2))

/-- `caminho_camadas_previsao(var_key, data_iso)`; `if not data_iso` is true
for both `None` and the empty string. -/
def caminho_camadas_previsao (fs : FS) (var_key : String) (data_iso : Option String) :
    Except PyErr (Option FPath) :=
  if var_key == "prec_acum" then .ok (latestFileInDirs fs "prec_acum_*.geojson")
  else
    match data_iso with
    | none => .ok none
    | some s => if s == "" then .ok none else bestMatchDateFile fs var_key s

-- ----------------- polygon classes ----------------- --

def ratTrunc (q : ℚ) : Int := if 0 ≤ q then ⌊q⌋ else -⌊-q⌋

def digitsVal : List Char → Option Nat → Option Nat
  | [], acc => acc
  | c :: cs, acc =>
    if c.isDigit then digitsVal cs (some ((acc.getD 0) * 10 + digitVal c))
    else none

def isPySpace (c : Char) : Bool :=
  c == ' ' || c == '\t' || c == '\n' || c == '\r' || c == '\x0b' || c == '\x0c'

/-- `int(s)` for a string: optional surrounding ASCII whitespace, optional
sign, a nonempty run of ASCII digits (`int` also accepts underscores between
digits and unicode digits, which never occur in this data). -/
def pyIntOfStr (s : String) : Option Int :=
  let cs := ((s.data.dropWhile isPySpace).reverse.dropWhile isPySpace).reverse
  match cs with
  | '-' :: rest => (digitsVal rest none).map (fun n => -(n : Int))
  | '+' :: rest => (digitsVal rest none).map (fun n => (n : Int))
  | rest => (digitsVal rest none).map (fun n => (n : Int))

/-- Python `int(v)`: bools and numbers truncate toward zero, strings parse,
everything else raises `TypeError`. -/
def pyInt : JVal → Except PyErr Int
  | .jbool b => .ok (if b then 1 else 0)
  | .jnum q => .ok (ratTrunc q)
  | .jstr s =>
    match pyIntOfStr s with
    | some n => .ok n
    | none => .error .valueError
  | _ => .error .typeError

/-- The `_ord` sort key of `carregar_geojson_poligonos_por_classe`:
`int((ft.get("properties") or {}).get("ordem", 0))`, with every exception
(non-dict feature, non-dict properties, unconvertible value) mapped to 0 by
the surrounding `try`/`except`. -/
def _ord (ft : JVal) : Int :=
  match ft with
  | .jobj kvs =>
    let props0 := (lookupKV kvs "properties").getD .jnull
    let props := if props0.truthy then props0 else .jobj []
    match props with
    | .jobj pd =>
      match pyInt ((lookupKV pd "ordem").getD (.jnum 0)) with
      | .ok n => n
      | .error _ => 0
    | _ => 0
  | _ => 0

def ordLe (a b : JVal) : Prop := _ord a ≤ _ord b

instance : DecidableRel ordLe := fun a b => Int.decLe (_ord a) (_ord b)
instance : IsTotal JVal ordLe := ⟨fun a b => Int.le_total (_ord a) (_ord b)⟩
instance : IsTrans JVal ordLe := ⟨fun _ _ _ h1 h2 => Int.le_trans h1 h2⟩

/-- `carregar_geojson_poligonos_por_classe(path_geojson)`: `None` path or
missing file yield `[]`; otherwise the features list (`or []`), sorted
stably by `_ord` (`sorted` is a stable sort). -/
def carregar_geojson_poligonos_por_classe (fs : FS) (path_geojson : Option FPath) :
    Except PyErr (List JVal) :=
  match path_geojson with
  | none => .ok []
  | some p =>
    match fs.contentOf p with
    | none => .ok []
    | some none => .error .jsonDecodeError
    | some (some gj) =>
      match pyGetD gj "features" (.jarr []) with
      | .error e => .error e
      | .ok featsV0 =>
        let featsV := if featsV0.truthy then featsV0 else .jarr []
        match pyIter featsV with
        | .error e => .error e
        | .ok feats => .ok (List.insertionSort ordLe feats)

-- ----------------- analysis of the point-loop body ----------------- --

/-- The three possible outcomes of the loop body of
`carregar_geojson_points` for one feature: an exception, a silent skip, or
one appended record (its payload fields). -/
inductive PtStep where
  | err (e : PyErr)
  | skip
  | keep (lat lon nome cnes cd_mun dsei polo cod_polo : JVal)

/-- `pointsStep` rewritten as a classification of the feature alone: the
loop body reads the accumulator only to append to it, so its behaviour is a
function of the feature. -/
def classifyPt (ft : JVal) : PtStep :=
  match pyGetD ft "geometry" (.jobj []) with
  | .error e => .err e
  | .ok geom =>
  match pyGetD ft "properties" (.jobj []) with
  | .error e => .err e
  | .ok props0 =>
  let props := if props0.truthy then props0 else .jobj []
  match pyGetD geom "type" .jnull with
  | .error e => .err e
  | .ok ty =>
  if ¬ ty.isStrEq "Point" then .skip
  else
  match pyGetD geom "coordinates" .jnull with
  | .error e => .err e
  | .ok coords =>
  if ¬ coords.truthy then .skip
  else
  match pyLen coords with
  | .error e => .err e
  | .ok n =>
  if n < 2 then .skip
  else
  match pyIndex coords 0 with
  | .error e => .err e
  | .ok lon =>
  match pyIndex coords 1 with
  | .error e => .err e
  | .ok lat =>
  match props with
  | .jobj pd =>
    .keep lat lon
      (orChain (.jstr "") [gv pd "nm_fantasia", gv pd "NM_FANTASIA",
        gv pd "nome_da_es", gv pd "NOME_DA_ES", gv pd "nome", gv pd "NOME"])
      (orChain (.jstr "") [gv pd "cd_cnes", gv pd "CD_CNES", gv pd "cnes", gv pd "CNES"])
      (orChain (.jstr "") [gv pd "cd_mun", gv pd "CD_MUN", gv pd "cod_mun", gv pd "COD_MUN"])
      (orChain (.jstr "") [gv pd "dsei", gv pd "DSEI"])
      (orChain (.jstr "") [gv pd "polo_base", gv pd "POLO_BASE"])
      (orChain (.jstr "") [gv pd "cod_polo", gv pd "COD_POLO"])
  | _ => .err .attributeError

/-- Does the feature contribute a record? -/
def keptF (ft : JVal) : Bool :=
  match classifyPt ft with
  | .keep .. => true
  | _ => false

/-- Does the feature's loop iteration complete without an exception? -/
def stepOK (ft : JVal) : Bool :=
  match classifyPt ft with
  | .err _ => false
  | _ => true

def latOf (ft : JVal) : JVal :=
  match classifyPt ft with
  | .keep lat .. => lat
  | _ => .jnull

def lonOf (ft : JVal) : JVal :=
  match classifyPt ft with
  | .keep _ lon .. => lon
  | _ => .jnull

def recOf (camada : String) (ft : JVal) : List JVal :=
  match classifyPt ft with
  | .keep lat lon nome cnes cd_mun dsei polo cod_polo =>
    [.jstr (pyUpper camada), nome, cnes, cd_mun, dsei, polo, cod_polo, lat, lon]
  | _ => []

lemma pointsStep_eq_classify (camada : String) (acc : PtAcc) (ft : JVal) :
    pointsStep camada acc ft =
      match classifyPt ft with
      | .err e => .error e
      | .skip => .ok acc
      | .keep lat lon nome cnes cd_mun dsei polo cod_polo =>
        .ok (acc.1 ++ [lat], acc.2.1 ++ [lon],
          acc.2.2 ++ [[.jstr (pyUpper camada), nome, cnes, cd_mun, dsei, polo, cod_polo, lat, lon]]) := by
  unfold pointsStep classifyPt
  rcases h1 : pyGetD ft "geometry" (JVal.jobj []) with e1 | geom <;> simp only [h1] <;> try rfl
  rcases h2 : pyGetD ft "properties" (JVal.jobj []) with e2 | props0 <;> simp only [h2] <;> try rfl
  rcases h3 : pyGetD geom "type" JVal.jnull with e3 | ty <;> simp only [h3] <;> try rfl
  by_cases h4 : ty.isStrEq "Point" = true <;> simp [h4] <;> try rfl
  rcases h5 : pyGetD geom "coordinates" JVal.jnull with e5 | coords <;> simp only [h5] <;> try rfl
  by_cases h6 : coords.truthy = true <;> simp [h6] <;> try rfl
  rcases h7 : pyLen coords with e7 | n <;> simp only [h7] <;> try rfl
  by_cases h8 : n < 2 <;> simp [h8] <;> try rfl
  rcases h9 : pyIndex coords 0 with e9 | lon <;> simp only [h9] <;> try rfl
  rcases h10 : pyIndex coords 1 with e10 | lat <;> simp only [h10] <;> try rfl
  by_cases hp : props0.truthy = true <;>
    rcases props0 with _ | b | q | s | xs | pd <;> simp_all

lemma latOf_classify {ft lat lon nome cnes cd_mun dsei polo cod_polo}
    (h : classifyPt ft = .keep lat lon nome cnes cd_mun dsei polo cod_polo) :
    latOf ft = lat := by
  simp [latOf, h]

lemma lonOf_classify {ft lat lon nome cnes cd_mun dsei polo cod_polo}
    (h : classifyPt ft = .keep lat lon nome cnes cd_mun dsei polo cod_polo) :
    lonOf ft = lon := by
  simp [lonOf, h]

lemma recOf_classify {ft lat lon nome cnes cd_mun dsei polo cod_polo} (camada : String)
    (h : classifyPt ft = .keep lat lon nome cnes cd_mun dsei polo cod_polo) :
    recOf camada ft =
      [.jstr (pyUpper camada), nome, cnes, cd_mun, dsei, polo, cod_polo, lat, lon] := by
  simp [recOf, h]

/-- Characterisation of the whole feature loop: when it finishes without an
exception, every iteration was exception-free and the three lists are the
accumulator extended with one verbatim entry per kept feature, in feature
order. -/
lemma pointsFold_ok (camada : String) : ∀ (feats : List JVal) (acc r : PtAcc),
    List.foldlM (pointsStep camada) acc feats = .ok r →
    (∀ ft ∈ feats, stepOK ft = true) ∧
    r = (acc.1 ++ (feats.filter keptF).map latOf,
         acc.2.1 ++ (feats.filter keptF).map lonOf,
         acc.2.2 ++ (feats.filter keptF).map (recOf camada)) := by
  intro feats
  induction feats with
  | nil =>
    intro acc r h
    have h2 : Except.ok acc = Except.ok r := h
    cases h2
    simp
  | cons ft rest ih =>
    intro acc r h
    have hstep : List.foldlM (pointsStep camada) acc (ft :: rest) =
        pointsStep camada acc ft >>= fun b => List.foldlM (pointsStep camada) b rest := rfl
    rw [hstep, pointsStep_eq_classify] at h
    rcases hc : classifyPt ft with e | _ | ⟨lat, lon, nome, cnes, cd_mun, dsei, polo, cod_polo⟩ <;>
      rw [hc] at h
    · have h2 : (Except.error e : Except PyErr PtAcc) = Except.ok r := h
      cases h2
    · have h' : List.foldlM (pointsStep camada) acc rest = .ok r := h
      obtain ⟨hok, hr⟩ := ih acc r h'
      refine ⟨?_, ?_⟩
      · intro x hx
        rcases List.mem_cons.1 hx with hx | hx
        · subst hx; simp [stepOK, hc]
        · exact hok x hx
      · have hk : keptF ft = false := by simp [keptF, hc]
        simpa [List.filter_cons, hk] using hr
    · have h' : List.foldlM (pointsStep camada)
          (acc.1 ++ [lat], acc.2.1 ++ [lon],
            acc.2.2 ++ [[.jstr (pyUpper camada), nome, cnes, cd_mun, dsei, polo, cod_polo,
              lat, lon]]) rest = .ok r := h
      obtain ⟨hok, hr⟩ := ih _ r h'
      refine ⟨?_, ?_⟩
      · intro x hx
        rcases List.mem_cons.1 hx with hx | hx
        · subst hx; simp [stepOK, hc]
        · exact hok x hx
      · have hk : keptF ft = true := by simp [keptF, hc]
        rw [hr]
        simp [List.filter_cons, hk, latOf_classify hc, lonOf_classify hc,
          recOf_classify camada hc]

-- ----------------- stability of the modelled sorts ----------------- --

lemma filter_orderedInsert_ord (v : Int) (x : JVal) (l : List JVal) :
    (l.orderedInsert ordLe x).filter (fun a => _ord a == v) =
      if _ord x == v then x :: l.filter (fun a => _ord a == v)
      else l.filter (fun a => _ord a == v) := by
  rw [List.orderedInsert_eq_take_drop]
  have hsplit : l.filter (fun a => _ord a == v) =
      (l.takeWhile fun b => decide ¬ ordLe x b).filter (fun a => _ord a == v) ++
      (l.dropWhile fun b => decide ¬ ordLe x b).filter (fun a => _ord a == v) := by
    rw [← List.filter_append, List.takeWhile_append_dropWhile]
  by_cases hx : _ord x == v
  · have htake : (l.takeWhile fun b => decide ¬ ordLe x b).filter (fun a => _ord a == v) = [] := by
      rw [List.filter_eq_nil]
      intro a ha
      have h2 : ¬ ordLe x a := by
        have h3 := List.mem_takeWhile_imp ha
        simpa using h3
      have hlt : _ord a < _ord x := by
        simpa [ordLe, not_le] using h2
      have hv : _ord x = v := by simpa using hx
      simp only [beq_iff_eq]
      omega
    rw [List.filter_append, List.filter_cons, hsplit, htake]
    simp [hx]
  · rw [List.filter_append, List.filter_cons, hsplit]
    simp [hx]

/-- `sorted(·, key=_ord)` is stable: the subsequence of features with any
given key value is untouched. -/
lemma filter_insertionSort_ord (v : Int) : ∀ l : List JVal,
    (List.insertionSort ordLe l).filter (fun a => _ord a == v) =
      l.filter (fun a => _ord a == v)
  | [] => rfl
  | x :: l => by
    rw [List.insertionSort, filter_orderedInsert_ord, filter_insertionSort_ord v l]
    by_cases hx : _ord x == v <;> simp [List.filter_cons, hx]

/-- In a list sorted by date, every element's date is at most the last's. -/
lemma dateLe_getLast : ∀ (l : List (Nat × FPath)) (hne : l ≠ []),
    List.Pairwise dateLe l → ∀ x ∈ l, x.1 ≤ (l.getLast hne).1
  | [], hne, _, _, _ => absurd rfl hne
  | [a], _, _, x, hx => by
    simp only [List.mem_singleton] at hx
    subst hx
    exact Nat.le_refl _
  | a :: b :: t, _, hp, x, hx => by
    have hgl : (a :: b :: t).getLast (by simp) = (b :: t).getLast (by simp) := by
      simp [List.getLast_cons]
    rw [hgl]
    rcases List.mem_cons.1 hx with hx | hx
    · subst hx
      have hmem : (b :: t).getLast (by simp) ∈ b :: t := List.getLast_mem _
      exact (List.pairwise_cons.1 hp).1 _ hmem
    · exact dateLe_getLast (b :: t) (by simp) (List.pairwise_cons.1 hp).2 x hx

-- ----------------- geometry-shape observations ----------------- --

lemma isStrEq_ne {v : JVal} {s t : String} (h : v.isStrEq s = true) (hne : s ≠ t) :
    v.isStrEq t = false := by
  rcases v with _ | b | q | sv | xs | kvs <;> simp [JVal.isStrEq] at h ⊢
  intro hc
  exact hne (h.symm.trans hc)

/-- A kept feature read its `geometry.type` as exactly the string
`"Point"`. -/
lemma classify_keep_type {ft lat lon n1 n2 n3 n4 n5 n6 : JVal}
    (h : classifyPt ft = .keep lat lon n1 n2 n3 n4 n5 n6) :
    ∃ geom gty, pyGetD ft "geometry" (.jobj []) = .ok geom ∧
      pyGetD geom "type" .jnull = .ok gty ∧ gty.isStrEq "Point" = true := by
  unfold classifyPt at h
  rcases h1 : pyGetD ft "geometry" (.jobj []) with e1 | geom <;> rw [h1] at h <;>
    try exact PtStep.noConfusion h
  simp only [] at h
  rcases h2 : pyGetD ft "properties" (.jobj []) with e2 | props0 <;> rw [h2] at h <;>
    try exact PtStep.noConfusion h
  simp only [] at h
  rcases h3 : pyGetD geom "type" .jnull with e3 | gty <;> rw [h3] at h <;>
    try exact PtStep.noConfusion h
  simp only [] at h
  by_cases h4 : gty.isStrEq "Point" = true
  · exact ⟨geom, gty, rfl, h3, h4⟩
  · simp [h4] at h

/-- A kept feature's recorded latitude and longitude are the raw
`coordinates[1]` and `coordinates[0]` values, unconverted. -/
lemma classify_keep_coords {ft lat lon n1 n2 n3 n4 n5 n6 : JVal}
    (h : classifyPt ft = .keep lat lon n1 n2 n3 n4 n5 n6) :
    ∃ geom coords, pyGetD ft "geometry" (.jobj []) = .ok geom ∧
      pyGetD geom "coordinates" .jnull = .ok coords ∧
      pyIndex coords 0 = .ok lon ∧ pyIndex coords 1 = .ok lat := by
  unfold classifyPt at h
  rcases h1 : pyGetD ft "geometry" (.jobj []) with e1 | geom <;> rw [h1] at h <;>
    try exact PtStep.noConfusion h
  simp only [] at h
  rcases h2 : pyGetD ft "properties" (.jobj []) with e2 | props0 <;> rw [h2] at h <;>
    try exact PtStep.noConfusion h
  simp only [] at h
  rcases h3 : pyGetD geom "type" .jnull with e3 | gty <;> rw [h3] at h <;>
    try exact PtStep.noConfusion h
  simp only [] at h
  by_cases h4 : gty.isStrEq "Point" = true
  swap
  · simp [h4] at h
  simp only [h4, not_true_eq_false, if_false] at h
  rcases h5 : pyGetD geom "coordinates" .jnull with e5 | coords <;> rw [h5] at h <;>
    try exact PtStep.noConfusion h
  simp only [] at h
  by_cases h6 : coords.truthy = true
  swap
  · simp [h6] at h
  simp only [h6, not_true_eq_false, if_false] at h
  rcases h7 : pyLen coords with e7 | n <;> rw [h7] at h <;>
    try exact PtStep.noConfusion h
  simp only [] at h
  by_cases h8 : n < 2
  · simp [h8] at h
  simp only [h8, if_false] at h
  rcases h9 : pyIndex coords 0 with e9 | lon0 <;> rw [h9] at h <;>
    try exact PtStep.noConfusion h
  simp only [] at h
  rcases h10 : pyIndex coords 1 with e10 | lat0 <;> rw [h10] at h <;>
    try exact PtStep.noConfusion h
  simp only [] at h
  rcases hpv : (if props0.truthy = true then props0 else JVal.jobj []) with
    _ | b3 | q3 | s3 | xs3 | pd <;> rw [hpv] at h <;> simp only [] at h <;>
    try exact PtStep.noConfusion h
  obtain ⟨hlat, hlon, -⟩ := PtStep.keep.inj h
  exact ⟨geom, coords, rfl, h5, by rw [h9, hlon], by rw [h10, hlat]⟩

/-- A feature whose `geometry.type` reads as `"MultiPoint"` is skipped by the
loop body: it contributes nothing and raises nothing. -/
lemma multiPoint_skip {ft geom gty : JVal}
    (hgeom : pyGetD ft "geometry" (.jobj []) = .ok geom)
    (hty : pyGetD geom "type" .jnull = .ok gty)
    (hmp : gty.isStrEq "MultiPoint" = true) :
    classifyPt ft = .skip := by
  have hnp : gty.isStrEq "Point" = false := isStrEq_ne hmp (by decide)
  rcases ft with _ | b | q | s | xs | kvs <;> try exact Except.noConfusion hgeom
  unfold classifyPt
  rw [hgeom]
  simp only []
  rw [show pyGetD (JVal.jobj kvs) "properties" (.jobj []) =
        .ok ((lookupKV kvs "properties").getD (.jobj [])) from rfl]
  simp only []
  rw [hty]
  simp [hnp]

-- ===================== claim theorems ===================== --

/-- C2: for every dated (non-accumulated) variable key and request date, the
raster resolver returns exactly the file `{prefix}{dateISO}.png` when it
exists and the empty result when it does not; no fallback is applied. -/
theorem claim_C2 (fs : FS) (var pre d : String)
    (h : (var, pre) ∈ [("prec", "ecmwf_prec_"), ("tmin", "ecmwf_tmin_"),
      ("tmax", "ecmwf_tmax_"), ("tmed", "ecmwf_tmed_")]) :
    carregar_imagem_base64 fs var (some d) =
      .ok (if fs.fileExists (IMG_DIR, pre ++ d ++ ".png")
           then some (IMG_DIR, pre ++ d ++ ".png") else none) := by
  simp only [List.mem_cons, List.not_mem_nil, or_false, Prod.mk.injEq] at h
  rcases h with ⟨rfl, rfl⟩ | ⟨rfl, rfl⟩ | ⟨rfl, rfl⟩ | ⟨rfl, rfl⟩ <;>
    split <;> rename_i hb <;>
    simp [carregar_imagem_base64, varLookup, VAR_OPCOES, hb]

/-- C2 witness: with `ecmwf_prec_2025-11-10.png` on disk the exact file is
returned; for `tmin` (whose file is absent) the result is empty. -/
theorem claim_C2_witness :
    carregar_imagem_base64 ⟨[BASE_DIR], [(BASE_DIR, "ecmwf_prec_2025-11-10.png", none)]⟩
      "prec" (some "2025-11-10") = .ok (some (IMG_DIR, "ecmwf_prec_2025-11-10.png")) ∧
    carregar_imagem_base64 ⟨[BASE_DIR], [(BASE_DIR, "ecmwf_prec_2025-11-10.png", none)]⟩
      "tmin" (some "2025-11-10") = .ok none := by
  constructor
  · rw [claim_C2 ⟨[BASE_DIR], [(BASE_DIR, "ecmwf_prec_2025-11-10.png", none)]⟩
      "prec" "ecmwf_prec_" "2025-11-10" (by simp)]
    rfl
  · rw [claim_C2 ⟨[BASE_DIR], [(BASE_DIR, "ecmwf_prec_2025-11-10.png", none)]⟩
      "tmin" "ecmwf_tmin_" "2025-11-10" (by simp)]
    rfl

/-- C9: at module initialisation, a missing image directory raises
`FileNotFoundError`, and an image directory with no valid
`ecmwf_prec_{YYYY-MM-DD}.png` raises `RuntimeError`; startup aborts instead
of degrading to a NotFound outcome. -/
theorem claim_C9 (fs : FS) :
    (fs.dirExists IMG_DIR = false → DATAS_init fs = .error .fileNotFoundError) ∧
    (fs.dirExists IMG_DIR = true →
      (fs.glob IMG_DIR "ecmwf_prec_*.png").filterMap (fun p => validDatePart p.2) = [] →
      DATAS_init fs = .error .runtimeError) := by
  constructor
  · intro h
    simp [DATAS_init, listar_datas_disponiveis, h]
  · intro h1 h2
    simp [DATAS_init, listar_datas_disponiveis, h1, h2, sortedSet]

/-- C9 witness: an empty filesystem aborts with `FileNotFoundError`; a base
directory whose only PNG has an unparsable date aborts with
`RuntimeError`. -/
theorem claim_C9_witness :
    DATAS_init ⟨[], []⟩ = .error .fileNotFoundError ∧
    DATAS_init ⟨[BASE_DIR], [(BASE_DIR, "ecmwf_prec_lastweek.png", none)]⟩ =
      .error .runtimeError := by
  constructor
  · exact (claim_C9 ⟨[], []⟩).1 rfl
  · exact (claim_C9 ⟨[BASE_DIR], [(BASE_DIR, "ecmwf_prec_lastweek.png", none)]⟩).2 rfl rfl

/-- C5 counterexample: a file whose bytes `json.load` rejects makes
`carregar_geojson_points` raise (`json.load` is not wrapped in `try`), it
does not return the empty record list as the claim states. -/
theorem claim_C5_counterexample :
    carregar_geojson_points ⟨[BASE_DIR], [(BASE_DIR, "upa.geojson", none)]⟩
      (some (BASE_DIR, "upa.geojson")) "upa" = .error .jsonDecodeError ∧
    (Except.error .jsonDecodeError : Except PyErr PtAcc) ≠ .ok ([], [], []) := by
  exact ⟨rfl, fun hc => Except.noConfusion hc⟩

/-- C5 amended: a missing (unreadable-as-absent) file yields the empty
lists, but malformed JSON raises a `JSONDecodeError` that propagates to the
caller. -/
theorem claim_C5_amended :
    (∀ fs p camada, fs.contentOf p = none →
      carregar_geojson_points fs (some p) camada = .ok ([], [], [])) ∧
    (∀ fs p camada, fs.contentOf p = some none →
      carregar_geojson_points fs (some p) camada = .error .jsonDecodeError) := by
  constructor <;> intro fs p camada h <;> simp [carregar_geojson_points, h]

/-- C5 amended witness: both behaviours at concrete filesystems. -/
theorem claim_C5_amended_witness :
    carregar_geojson_points ⟨[BASE_DIR], []⟩ (some (BASE_DIR, "upa.geojson")) "upa" =
      .ok ([], [], []) ∧
    carregar_geojson_points ⟨[BASE_DIR], [(BASE_DIR, "ubs.geojson", none)]⟩
      (some (BASE_DIR, "ubs.geojson")) "ubs" = .error .jsonDecodeError := by
  constructor
  · exact claim_C5_amended.1 ⟨[BASE_DIR], []⟩ (BASE_DIR, "upa.geojson") "upa" rfl
  · exact claim_C5_amended.2 ⟨[BASE_DIR], [(BASE_DIR, "ubs.geojson", none)]⟩
      (BASE_DIR, "ubs.geojson") "ubs" rfl

/-- C6 counterexample: with `ubs.geojson` present in the layer directory, the
request key `"UBS"` does not resolve case-insensitively to that file — the
dict lookup misses and the subsequent `None.exists()` raises
`AttributeError`. -/
theorem claim_C6_counterexample :
    (⟨[BASE_DIR], [(BASE_DIR, "ubs.geojson",
        some (.jobj [("type", .jstr "FeatureCollection"), ("features", .jarr [])]))]⟩ :
      FS).fileExists (BASE_DIR, "ubs.geojson") = true ∧
    construir_mapa_unidades_points
      ⟨[BASE_DIR], [(BASE_DIR, "ubs.geojson",
        some (.jobj [("type", .jstr "FeatureCollection"), ("features", .jarr [])]))]⟩
      "UBS" = .error .attributeError := by
  exact ⟨rfl, rfl⟩

/-- C6 amended: the facility-layer lookup is an exact match on the three
fixed lowercase keys of `GEOJSON_FILES` against paths in the base directory;
there is no case-insensitive matching, no directory list and no recursive
search, and any other key (such as `"UBS"`) maps to `None`, which makes the
point loader raise `AttributeError`. -/
theorem claim_C6_amended :
    (∀ fs, construir_mapa_unidades_points fs "UBS" = .error .attributeError) ∧
    GEOJSON_FILES "UBS" = none ∧
    GEOJSON_FILES "ubs" = some (BASE_DIR, "ubs.geojson") ∧
    (∀ k, GEOJSON_FILES k ≠ none → k = "upa" ∨ k = "ubs" ∨ k = "ubsi") := by
  refine ⟨fun fs => rfl, rfl, rfl, ?_⟩
  intro k h
  by_cases h1 : k = "upa"
  · exact Or.inl h1
  by_cases h2 : k = "ubs"
  · exact Or.inr (Or.inl h2)
  by_cases h3 : k = "ubsi"
  · exact Or.inr (Or.inr h3)
  exact absurd (by simp [GEOJSON_FILES, h1, h2, h3]) h

/-- C6 amended witness: concrete instances of each conjunct. -/
theorem claim_C6_amended_witness :
    construir_mapa_unidades_points ⟨[], []⟩ "UBS" = .error .attributeError ∧
    ("ubsi" = "upa" ∨ "ubsi" = "ubs" ∨ "ubsi" = "ubsi") := by
  exact ⟨claim_C6_amended.1 ⟨[], []⟩,
    claim_C6_amended.2.2.2 "ubsi" (fun hc => Option.noConfusion hc)⟩

/-- Destructuring `carregar_geojson_points` down to its feature loop when the
file holds a FeatureCollection object with a `features` array. -/
lemma carregar_points_fold (fs : FS) (p : FPath) (camada : String) (gj : JVal)
    (feats : List JVal) (r : PtAcc)
    (hc : fs.contentOf p = some (some gj))
    (hf : pyGetD gj "features" (.jarr []) = .ok (.jarr feats))
    (h : carregar_geojson_points fs (some p) camada = .ok r) :
    List.foldlM (pointsStep camada) ([], [], []) feats = .ok r := by
  unfold carregar_geojson_points at h
  simp only [] at h
  rw [hc] at h
  simp only [] at h
  rw [hf] at h
  simp only [] at h
  exact h

lemma recOf_fields {ft : JVal} (hk : keptF ft = true) (camada : String) :
    (recOf camada ft).length = 9 ∧
    (recOf camada ft).get? 0 = some (.jstr (pyUpper camada)) ∧
    (recOf camada ft).get? 7 = some (latOf ft) ∧
    (recOf camada ft).get? 8 = some (lonOf ft) := by
  unfold keptF at hk
  rcases hcl : classifyPt ft with e | _ | ⟨lat, lon, a, b, c, d, e2, f⟩ <;> rw [hcl] at hk <;>
    try exact Bool.noConfusion hk
  simp [recOf, latOf, lonOf, hcl]

/-- C10: the three lists produced by `carregar_geojson_points` have equal
lengths; each custom record has nine fields, carries the same latitude and
longitude as the corresponding entries of the latitude and longitude lists at
positions 7 and 8, and carries the upper-cased layer name at position 0. -/
theorem claim_C10 (fs : FS) (caminho : Option FPath) (camada : String) (r : PtAcc)
    (h : carregar_geojson_points fs caminho camada = .ok r) :
    r.1.length = r.2.1.length ∧ r.2.2.length = r.1.length ∧
    ∀ i, i < r.2.2.length →
      (r.2.2.getD i []).length = 9 ∧
      (r.2.2.getD i []).get? 7 = r.1.get? i ∧
      (r.2.2.getD i []).get? 8 = r.2.1.get? i ∧
      (r.2.2.getD i []).get? 0 = some (.jstr (pyUpper camada)) := by
  rcases caminho with _ | p
  · exact absurd h (fun hc => Except.noConfusion hc)
  unfold carregar_geojson_points at h
  simp only [] at h
  rcases hcon : fs.contentOf p with _ | cj <;> rw [hcon] at h
  · have h2 : (([], [], []) : PtAcc) = r :=
      Except.ok.inj (show Except.ok (ε := PyErr) (([], [], []) : PtAcc) = .ok r from h)
    rw [← h2]
    exact ⟨rfl, rfl, fun i hi => absurd hi (by simp)⟩
  rcases cj with _ | gj
  · exact (Except.noConfusion
      (show (Except.error .jsonDecodeError : Except PyErr PtAcc) = .ok r from h))
  simp only [] at h
  rcases hg : pyGetD gj "features" (.jarr []) with e | fv <;> rw [hg] at h
  · exact (Except.noConfusion (show (Except.error e : Except PyErr PtAcc) = .ok r from h))
  simp only [] at h
  rcases hi : pyIter fv with e | feats <;> rw [hi] at h
  · exact (Except.noConfusion (show (Except.error e : Except PyErr PtAcc) = .ok r from h))
  simp only [] at h
  obtain ⟨-, hr⟩ := pointsFold_ok camada feats ([], [], []) r h
  simp only [List.nil_append] at hr
  subst hr
  refine ⟨by simp, by simp, ?_⟩
  intro i hilt
  have hlen : i < (feats.filter keptF).length := by simpa using hilt
  have hftg : (feats.filter keptF).get? i = some ((feats.filter keptF).get ⟨i, hlen⟩) :=
    List.get?_eq_get hlen
  set ft := (feats.filter keptF).get ⟨i, hlen⟩ with hft
  have hftmem : ft ∈ feats.filter keptF := List.get_mem _ _ _
  have hkept : keptF ft = true := (List.mem_filter.1 hftmem).2
  have hftg2 : (List.filter keptF feats)[i]? = some ft := by
    rw [← List.get?_eq_getElem?]
    exact hftg
  have hgd : (((feats.filter keptF).map (recOf camada)).getD i []) = recOf camada ft := by
    simp [List.getD, hftg2]
  obtain ⟨hl9, h0, h7, h8⟩ := recOf_fields hkept camada
  refine ⟨by rw [hgd]; exact hl9, ?_, ?_, ?_⟩
  · rw [hgd, h7]
    simp [hftg2]
  · rw [hgd, h8]
    simp [hftg2]
  · rw [hgd, h0]

def ftC10w : JVal := .jobj [("type", .jstr "Feature"),
  ("geometry", .jobj [("type", .jstr "Point"), ("coordinates", .jarr [.jnum 10, .jnum 20])]),
  ("properties", .jobj [("nome", .jstr "N")])]

def fsC10w : FS := ⟨[BASE_DIR],
  [(BASE_DIR, "upa.geojson", some (.jobj [("features", .jarr [ftC10w])]))]⟩

def rC10w : PtAcc :=
  ([.jnum 20], [.jnum 10],
   [[.jstr "UPA", .jstr "N", .jstr "", .jstr "", .jstr "", .jstr "", .jstr "", .jnum 20, .jnum 10]])

/-- C10 witness: the invariants at a concrete one-point layer file. -/
theorem claim_C10_witness :
    rC10w.1.length = rC10w.2.1.length ∧ rC10w.2.2.length = rC10w.1.length ∧
    ∀ i, i < rC10w.2.2.length →
      (rC10w.2.2.getD i []).length = 9 ∧
      (rC10w.2.2.getD i []).get? 7 = rC10w.1.get? i ∧
      (rC10w.2.2.getD i []).get? 8 = rC10w.2.1.get? i ∧
      (rC10w.2.2.getD i []).get? 0 = some (.jstr (pyUpper "upa")) :=
  claim_C10 fsC10w (some (BASE_DIR, "upa.geojson")) "upa" rC10w rfl

/-- C3 amended: `carregar_geojson_points` produces exactly one record per
feature the loop keeps, every kept feature has geometry type exactly
`"Point"`, and a feature whose geometry type is `"MultiPoint"` is skipped
outright — it contributes no records at all instead of being expanded into
one record per coordinate pair. -/
theorem claim_C3_amended (fs : FS) (p : FPath) (camada : String) (gj : JVal)
    (feats : List JVal) (r : PtAcc)
    (hc : fs.contentOf p = some (some gj))
    (hf : pyGetD gj "features" (.jarr []) = .ok (.jarr feats))
    (h : carregar_geojson_points fs (some p) camada = .ok r) :
    r.2.2.length = feats.countP keptF ∧
    (∀ ft, keptF ft = true → ∃ geom gty, pyGetD ft "geometry" (.jobj []) = .ok geom ∧
      pyGetD geom "type" .jnull = .ok gty ∧ gty.isStrEq "Point" = true) ∧
    (∀ ft geom gty, pyGetD ft "geometry" (.jobj []) = .ok geom →
      pyGetD geom "type" .jnull = .ok gty → gty.isStrEq "MultiPoint" = true →
      keptF ft = false ∧ ∀ acc, pointsStep camada acc ft = .ok acc) := by
  have hfold := carregar_points_fold fs p camada gj feats r hc hf h
  obtain ⟨-, hr⟩ := pointsFold_ok camada feats ([], [], []) r hfold
  refine ⟨?_, ?_, ?_⟩
  · rw [hr]
    simp [List.countP_eq_length_filter]
  · intro ft hk
    unfold keptF at hk
    rcases hcl : classifyPt ft with e | _ | ⟨lat, lon, a, b, c, d, e2, f⟩ <;> rw [hcl] at hk <;>
      try exact Bool.noConfusion hk
    exact classify_keep_type hcl
  · intro ft geom gty hgm hty hmp
    have hskip := multiPoint_skip hgm hty hmp
    refine ⟨by simp [keptF, hskip], fun acc => ?_⟩
    rw [pointsStep_eq_classify, hskip]

def ftC3 : JVal := .jobj [("type", .jstr "Feature"),
  ("geometry", .jobj [("type", .jstr "MultiPoint"),
     ("coordinates", .jarr [.jarr [.jnum 1, .jnum 2], .jarr [.jnum 3, .jnum 4]])]),
  ("properties", .jobj [("nome", .jstr "M")])]

def fsC3 : FS := ⟨[BASE_DIR],
  [(BASE_DIR, "ubs.geojson", some (.jobj [("features", .jarr [ftC3])]))]⟩

/-- C3 counterexample: a MultiPoint feature with two coordinate pairs yields
zero records, not the two records the claim requires. -/
theorem claim_C3_counterexample :
    carregar_geojson_points fsC3 (some (BASE_DIR, "ubs.geojson")) "ubs" = .ok ([], [], []) ∧
    ([] : List (List JVal)).length ≠ 2 :=
  ⟨rfl, by decide⟩

/-- C3 amended witness: the amended statement at the MultiPoint example. -/
theorem claim_C3_amended_witness :
    (([], [], []) : PtAcc).2.2.length = [ftC3].countP keptF ∧
    (∀ ft, keptF ft = true → ∃ geom gty, pyGetD ft "geometry" (.jobj []) = .ok geom ∧
      pyGetD geom "type" .jnull = .ok gty ∧ gty.isStrEq "Point" = true) ∧
    (∀ ft geom gty, pyGetD ft "geometry" (.jobj []) = .ok geom →
      pyGetD geom "type" .jnull = .ok gty → gty.isStrEq "MultiPoint" = true →
      keptF ft = false ∧ ∀ acc, pointsStep "ubs" acc ft = .ok acc) :=
  claim_C3_amended fsC3 (BASE_DIR, "ubs.geojson") "ubs"
    (.jobj [("features", .jarr [ftC3])]) [ftC3] ([], [], []) rfl rfl rfl

/-- C4 amended: the parser performs no numeric parsing and no range or
finiteness validation — the latitude and longitude lists are the raw
`coordinates[1]`/`coordinates[0]` values of the kept features, verbatim
(string-typed coordinates therefore stay strings rather than becoming
floats, and out-of-range numbers are emitted rather than dropped). -/
theorem claim_C4_amended (fs : FS) (p : FPath) (camada : String) (gj : JVal)
    (feats : List JVal) (r : PtAcc)
    (hc : fs.contentOf p = some (some gj))
    (hf : pyGetD gj "features" (.jarr []) = .ok (.jarr feats))
    (h : carregar_geojson_points fs (some p) camada = .ok r) :
    r.1 = (feats.filter keptF).map latOf ∧
    r.2.1 = (feats.filter keptF).map lonOf ∧
    (∀ ft, keptF ft = true →
      ∃ geom coords, pyGetD ft "geometry" (.jobj []) = .ok geom ∧
        pyGetD geom "coordinates" .jnull = .ok coords ∧
        pyIndex coords 0 = .ok (lonOf ft) ∧ pyIndex coords 1 = .ok (latOf ft)) := by
  have hfold := carregar_points_fold fs p camada gj feats r hc hf h
  obtain ⟨-, hr⟩ := pointsFold_ok camada feats ([], [], []) r hfold
  simp only [List.nil_append] at hr
  refine ⟨by rw [hr], by rw [hr], ?_⟩
  intro ft hk
  unfold keptF at hk
  rcases hcl : classifyPt ft with e | _ | ⟨lat, lon, a, b, c, d, e2, f⟩ <;> rw [hcl] at hk <;>
    try exact Bool.noConfusion hk
  obtain ⟨geom, coords, h1, h5, hlon, hlat⟩ := classify_keep_coords hcl
  refine ⟨geom, coords, h1, h5, ?_, ?_⟩
  · rw [lonOf_classify hcl]
    exact hlon
  · rw [latOf_classify hcl]
    exact hlat

def ftC4 : JVal := .jobj [("type", .jstr "Feature"),
  ("geometry", .jobj [("type", .jstr "Point"), ("coordinates", .jarr [.jnum 200, .jnum 100])]),
  ("properties", .jobj [("nome", .jstr "X")])]

def fsC4 : FS := ⟨[BASE_DIR],
  [(BASE_DIR, "upa.geojson", some (.jobj [("features", .jarr [ftC4])]))]⟩

/-- C4 counterexample: a Point with longitude 200 and latitude 100 — both
out of range — is emitted as a record, not dropped; the emitted latitude is
100, violating the claimed `[-90, 90]` invariant. -/
theorem claim_C4_counterexample :
    carregar_geojson_points fsC4 (some (BASE_DIR, "upa.geojson")) "upa" =
      .ok ([.jnum 100], [.jnum 200],
        [[.jstr "UPA", .jstr "X", .jstr "", .jstr "", .jstr "", .jstr "", .jstr "",
          .jnum 100, .jnum 200]]) ∧
    ¬ ((100 : ℚ) ≤ 90) :=
  ⟨rfl, by norm_num⟩

def ftC4w : JVal := .jobj [("type", .jstr "Feature"),
  ("geometry", .jobj [("type", .jstr "Point"),
     ("coordinates", .jarr [.jstr "-46.6", .jstr "-23.5"])]),
  ("properties", .jobj [])]

def fsC4w : FS := ⟨[BASE_DIR],
  [(BASE_DIR, "upa.geojson", some (.jobj [("features", .jarr [ftC4w])]))]⟩

/-- C4 amended witness: a feature with string-typed coordinates — the
emitted lists carry the strings verbatim. -/
theorem claim_C4_amended_witness :
    ([JVal.jstr "-23.5"] : List JVal) = ([ftC4w].filter keptF).map latOf ∧
    ([JVal.jstr "-46.6"] : List JVal) = ([ftC4w].filter keptF).map lonOf ∧
    (∀ ft, keptF ft = true →
      ∃ geom coords, pyGetD ft "geometry" (.jobj []) = .ok geom ∧
        pyGetD geom "coordinates" .jnull = .ok coords ∧
        pyIndex coords 0 = .ok (lonOf ft) ∧ pyIndex coords 1 = .ok (latOf ft)) :=
  claim_C4_amended fsC4w (BASE_DIR, "upa.geojson") "upa"
    (.jobj [("features", .jarr [ftC4w])]) [ftC4w]
    ([.jstr "-23.5"], [.jstr "-46.6"],
     [[.jstr "UPA", .jstr "", .jstr "", .jstr "", .jstr "", .jstr "", .jstr "",
       .jstr "-23.5", .jstr "-46.6"]]) rfl rfl rfl

/-- C7: the list returned by `carregar_geojson_poligonos_por_classe` is
sorted ascending by the integer `ordem` key (`_ord`, defaulting to 0 when
absent or unparsable), and the sort is stable: for every key value, the
subsequence of features with that key is identical to the one in the source
`features` array. -/
theorem claim_C7 (fs : FS) (p : FPath) (gj : JVal) (feats : List JVal)
    (hc : fs.contentOf p = some (some gj))
    (hf : pyGetD gj "features" (.jarr []) = .ok (.jarr feats)) :
    ∃ out, carregar_geojson_poligonos_por_classe fs (some p) = .ok out ∧
      List.Pairwise ordLe out ∧
      ∀ v : Int, out.filter (fun ft => _ord ft == v) =
        feats.filter (fun ft => _ord ft == v) := by
  refine ⟨List.insertionSort ordLe feats, ?_, ?_, ?_⟩
  · unfold carregar_geojson_poligonos_por_classe
    simp only []
    rw [hc]
    simp only []
    rw [hf]
    simp only []
    rcases feats with _ | ⟨f0, frest⟩ <;> rfl
  · exact List.sorted_insertionSort ordLe feats
  · exact fun v => filter_insertionSort_ord v feats

def ftsC7 : List JVal :=
  [.jobj [("properties", .jobj [("ordem", .jnum 2), ("label", .jstr "B")])],
   .jobj [("properties", .jobj [("ordem", .jnum 1), ("label", .jstr "A")])],
   .jobj [("properties", .jobj [("ordem", .jnum 1), ("label", .jstr "A2")])]]

def fsC7 : FS := ⟨[CAMADAS_DIR],
  [(CAMADAS_DIR, "prec_2025-11-10.geojson", some (.jobj [("features", .jarr ftsC7)]))]⟩

/-- C7 witness: a file with keys 2, 1, 1 — output sorted and the two
equal-key features keep their source order. -/
theorem claim_C7_witness :
    ∃ out, carregar_geojson_poligonos_por_classe fsC7
        (some (CAMADAS_DIR, "prec_2025-11-10.geojson")) = .ok out ∧
      List.Pairwise ordLe out ∧
      ∀ v : Int, out.filter (fun ft => _ord ft == v) =
        ftsC7.filter (fun ft => _ord ft == v) :=
  claim_C7 fsC7 (CAMADAS_DIR, "prec_2025-11-10.geojson")
    (.jobj [("features", .jarr ftsC7)]) ftsC7 rfl rfl

/-- C8: for every classification-layer query with zero matching files across
the candidate directories, `caminho_camadas_previsao` returns `None` without
raising; non-existent candidate directories are skipped.  (For the dated
path the request date is a well-formed `YYYY-MM-DD` date or falsy, as
supplied by the app's date dropdown.) -/
theorem claim_C8 :
    (∀ fs data_iso, (∀ d ∈ CAMADAS_FALLBACK_DIRS, fs.dirExists d = true →
        fs.glob d "prec_acum_*.geojson" = []) →
      caminho_camadas_previsao fs "prec_acum" data_iso = .ok none) ∧
    (∀ fs var, (var == "prec_acum") = false →
      caminho_camadas_previsao fs var none = .ok none ∧
      caminho_camadas_previsao fs var (some "") = .ok none) ∧
    (∀ fs var data target, (var == "prec_acum") = false → strptimeYmd data = some target →
      exactStep fs var data = none → containsDateStep fs var data = none →
      datedOf fs var = [] →
      caminho_camadas_previsao fs var (some data) = .ok none) := by
  refine ⟨?_, ?_, ?_⟩
  · intro fs data_iso h
    have hc := h CAMADAS_DIR (by simp [CAMADAS_FALLBACK_DIRS])
    have hb := h BASE_DIR (by simp [CAMADAS_FALLBACK_DIRS])
    unfold caminho_camadas_previsao latestFileInDirs
    simp only [CAMADAS_FALLBACK_DIRS, List.foldl]
    by_cases h1 : fs.dirExists CAMADAS_DIR = true <;> by_cases h2 : fs.dirExists BASE_DIR = true
    · simp [h1, h2, hc h1, hb h2, List.insertionSort]
    · simp [h1, h2, hc h1, List.insertionSort]
    · simp [h1, h2, hb h2, List.insertionSort]
    · simp [h1, h2, List.insertionSort]
  · intro fs var hv
    constructor <;> simp [caminho_camadas_previsao, hv]
  · intro fs var data target hv hdate hex hcon hdat
    have hne : (data == "") = false := by
      rcases hdq : data == "" with _ | _
      · rfl
      · have hd0 : data = "" := by simpa using hdq
        rw [hd0] at hdate
        exact Option.noConfusion (show (none : Option Nat) = some target from hdate)
    unfold caminho_camadas_previsao
    simp only [hv, Bool.false_eq_true, if_false, hne]
    unfold bestMatchDateFile
    rw [hex]
    simp only []
    rw [hcon]
    simp only []
    rw [hdate]
    simp only []
    rw [hdat]

/-- C8 witness: the three branches at concrete filesystems. -/
theorem claim_C8_witness :
    caminho_camadas_previsao ⟨[], []⟩ "prec_acum" none = .ok none ∧
    caminho_camadas_previsao ⟨[], []⟩ "tmin" none = .ok none ∧
    caminho_camadas_previsao ⟨[CAMADAS_DIR], [(CAMADAS_DIR, "tmax_notes.txt", none)]⟩
      "tmax" (some "2025-11-10") = .ok none := by
  refine ⟨?_, ?_, ?_⟩
  · exact claim_C8.1 ⟨[], []⟩ none (by decide)
  · exact (claim_C8.2.1 ⟨[], []⟩ "tmin" (by decide)).1
  · exact claim_C8.2.2 ⟨[CAMADAS_DIR], [(CAMADAS_DIR, "tmax_notes.txt", none)]⟩
      "tmax" "2025-11-10" 20251110 (by decide) rfl rfl rfl rfl

def fsC1 : FS := ⟨[CAMADAS_DIR],
  [(CAMADAS_DIR, "prec_acum_2025-10-01_a_2025-11-10.geojson", none),
   (CAMADAS_DIR, "prec_2025-11-05.geojson", none)]⟩

/-- C1 counterexample: no exact `prec_2025-11-10.geojson` exists and
`prec_2025-11-05.geojson` is a `prec_*` file with embedded date
2025-11-05 ≤ 2025-11-10 (the maximum such date), yet the resolver returns
`prec_acum_2025-10-01_a_2025-11-10.geojson` — picked by the date-substring
tier (`prec*2025-11-10*.geojson`) that runs before the date-≤ fallback —
whose embedded date 2025-10-01 is not that maximum. -/
theorem claim_C1_counterexample :
    (fsC1.fileExists (CAMADAS_DIR, "prec_2025-11-10.geojson") = false ∧
     fsC1.fileExists (BASE_DIR, "prec_2025-11-10.geojson") = false) ∧
    (globMatch "prec_*.geojson" "prec_2025-11-05.geojson" = true ∧
     parseDateFromName "prec_2025-11-05.geojson" = some "2025-11-05" ∧
     strptimeYmd "2025-11-05" = some 20251105 ∧
     strptimeYmd "2025-11-10" = some 20251110 ∧ 20251105 ≤ 20251110) ∧
    caminho_camadas_previsao fsC1 "prec" (some "2025-11-10") =
      .ok (some (CAMADAS_DIR, "prec_acum_2025-10-01_a_2025-11-10.geojson")) ∧
    parseDateFromName "prec_acum_2025-10-01_a_2025-11-10.geojson" = some "2025-10-01" ∧
    (20251001 : Nat) ≠ 20251105 := by
  exact ⟨⟨rfl, rfl⟩, ⟨rfl, rfl, rfl, rfl, by decide⟩, rfl, rfl, by decide⟩

/-- C1 amended: when no exact dated file exists AND the date-substring tier
(`{var}*{date}*.geojson`) also finds nothing, the resolver returns a file
whose embedded date is the maximum embedded date ≤ the requested date among
the step-3 candidates (the `{var}_*.geojson`/`{var}*.geojson` globs over the
existing candidate directories). -/
theorem claim_C1_amended (fs : FS) (var data : String) (target : Nat)
    (hvar : (var == "prec_acum") = false)
    (hdate : strptimeYmd data = some target)
    (hexact : exactStep fs var data = none)
    (hsub : containsDateStep fs var data = none)
    (t0 : Nat) (p0 : FPath)
    (hmem : (t0, p0) ∈ datedOf fs var) (hle : t0 ≤ target) :
    ∃ q tq, caminho_camadas_previsao fs var (some data) = .ok (some q) ∧
      (tq, q) ∈ datedOf fs var ∧ tq ≤ target ∧
      ∀ x ∈ datedOf fs var, x.1 ≤ target → x.1 ≤ tq := by
  have hne : (data == "") = false := by
    rcases hdq : data == "" with _ | _
    · rfl
    · have hd0 : data = "" := by simpa using hdq
      rw [hd0] at hdate
      exact Option.noConfusion (show (none : Option Nat) = some target from hdate)
  unfold caminho_camadas_previsao
  simp only [hvar, Bool.false_eq_true, if_false, hne]
  unfold bestMatchDateFile
  rw [hexact]
  simp only []
  rw [hsub]
  simp only []
  rw [hdate]
  simp only []
  rcases hdl : datedOf fs var with _ | ⟨d0, drest⟩
  · rw [hdl] at hmem
    exact absurd hmem (List.not_mem_nil _)
  simp only []
  have hmem2 : (t0, p0) ∈ d0 :: drest := hdl ▸ hmem
  have hperm := List.perm_insertionSort dateLe (d0 :: drest)
  have hmemds : (t0, p0) ∈ List.insertionSort dateLe (d0 :: drest) := hperm.mem_iff.2 hmem2
  have hmemleq : (t0, p0) ∈
      (List.insertionSort dateLe (d0 :: drest)).filter (fun x => decide (x.1 ≤ target)) :=
    List.mem_filter.2 ⟨hmemds, by simpa using hle⟩
  have hlne : (List.insertionSort dateLe (d0 :: drest)).filter
      (fun x => decide (x.1 ≤ target)) ≠ [] := by
    intro hc
    rw [hc] at hmemleq
    exact absurd hmemleq (List.not_mem_nil _)
  have hgl := List.getLast?_eq_getLast _ hlne
  rw [hgl]
  set w := ((List.insertionSort dateLe (d0 :: drest)).filter
      (fun x => decide (x.1 ≤ target))).getLast hlne with hw
  have hwleq : w ∈ (List.insertionSort dateLe (d0 :: drest)).filter
      (fun x => decide (x.1 ≤ target)) := List.getLast_mem hlne
  have hwds : w ∈ List.insertionSort dateLe (d0 :: drest) := (List.mem_filter.1 hwleq).1
  have hwdated : w ∈ d0 :: drest := hperm.mem_iff.1 hwds
  have hwle : w.1 ≤ target := by
    have := (List.mem_filter.1 hwleq).2
    simpa using this
  have hsorted : List.Pairwise dateLe (List.insertionSort dateLe (d0 :: drest)) :=
    List.sorted_insertionSort dateLe (d0 :: drest)
  have hsortedleq : List.Pairwise dateLe ((List.insertionSort dateLe (d0 :: drest)).filter
      (fun x => decide (x.1 ≤ target))) := hsorted.filter _
  refine ⟨w.2, w.1, rfl, ?_, hwle, ?_⟩
  · simpa using hwdated
  · intro x hx hxle
    have hxds : x ∈ List.insertionSort dateLe (d0 :: drest) :=
      hperm.mem_iff.2 (hdl ▸ hx)
    have hxleq : x ∈ (List.insertionSort dateLe (d0 :: drest)).filter
        (fun x => decide (x.1 ≤ target)) := List.mem_filter.2 ⟨hxds, by simpa using hxle⟩
    exact dateLe_getLast _ hlne hsortedleq x hxleq

def fsC1w : FS := ⟨[CAMADAS_DIR],
  [(CAMADAS_DIR, "prec_2025-11-05.geojson", none),
   (CAMADAS_DIR, "prec_2025-11-12.geojson", none)]⟩

/-- C1 amended witness: the spec's scenario — `prec_2025-11-05` and
`prec_2025-11-12` on disk, request 2025-11-10 — resolves to a file with the
maximum embedded date ≤ the request. -/
theorem claim_C1_amended_witness :
    ∃ q tq, caminho_camadas_previsao fsC1w "prec" (some "2025-11-10") = .ok (some q) ∧
      (tq, q) ∈ datedOf fsC1w "prec" ∧ tq ≤ 20251110 ∧
      ∀ x ∈ datedOf fsC1w "prec", x.1 ≤ 20251110 → x.1 ≤ tq :=
  claim_C1_amended fsC1w "prec" "2025-11-10" 20251110 rfl rfl rfl rfl
    20251105 (CAMADAS_DIR, "prec_2025-11-05.geojson") (by decide) (by decide)
